import Mathlib

/-!
Verification development for the visitor-quota and session-authentication
subsystem of the `investigate` web backend.

The definitions below are a shallow embedding of `src/auth.js`,
`src/database.js` and the relevant handlers of `src/server.js`:

* the SQLite tables become Lean lists of structures inside a `Db` state;
* each store operation becomes a pure function `Db → ... → Db × result`;
* each HTTP handler becomes a pure function from the `Db` state and the
  request data to the new state and the serialized response.

Timestamps.  The code stores two distinct textual DATETIME formats in the
database and compares them with SQLite's BINARY (byte-wise) text collation:

* values produced in JavaScript via `new Date(...).toISOString()`, of shape
  `YYYY-MM-DDTHH:MM:SS.mmmZ` (separator `T`, code 84, millisecond precision);
* values produced by SQLite itself via `CURRENT_TIMESTAMP` / `datetime('now')`,
  of shape `YYYY-MM-DD HH:MM:SS` (separator space, code 32, second precision).

`DbTime` models such a text value by its instant (milliseconds since the Unix
epoch, the common origin of both formats, which are both UTC) together with its
format.  Byte-wise comparison of the rendered texts is captured faithfully by
`dbTimeGt`: the first 10 bytes are the `YYYY-MM-DD` date (whose byte-wise order
agrees with the order of the day number for all representable years), byte 11
is the separator (84 for ISO, 32 for SQLite), and the remaining bytes render
the time of day, whose byte-wise order agrees with the millisecond of the day
(ISO) resp. the second of the day (SQLite).  Hence the comparison is the
lexicographic comparison of `(day, separator code, time-of-day key)`.
-/

/-- Milliseconds per UTC day. -/
def msPerDay : Nat := 86400000

/-- The textual DATETIME format a stored value was rendered in. -/
inductive TFmt where
  | iso
  | sqlite
deriving DecidableEq, Repr

/-- Byte value of the date/time separator character of each format
(`T` = 84 for ISO-8601, space = 32 for SQLite `datetime('now')`). -/
def TFmt.sepCode : TFmt → Nat
  | .iso => 84
  | .sqlite => 32

/-- A DATETIME text value stored in the database: the instant it denotes
(milliseconds since the Unix epoch) plus the format it was rendered in. -/
structure DbTime where
  fmt : TFmt
  ms : Nat
deriving DecidableEq, Repr

/-- ISO rendering keeps millisecond precision, SQLite rendering keeps
second precision: the byte-wise order of the time-of-day part of the text
agrees with this key. -/
def DbTime.timeOfDayKey : DbTime → Nat
  | ⟨.iso, ms⟩ => ms % msPerDay
  | ⟨.sqlite, ms⟩ => ms % msPerDay / 1000

/-- Byte-wise (`BINARY` collation) `>` on the rendered DATETIME texts:
lexicographic on (day number, separator byte, time-of-day key). -/
def dbTimeGt (a b : DbTime) : Bool :=
  a.ms / msPerDay > b.ms / msPerDay ||
    (a.ms / msPerDay == b.ms / msPerDay &&
      (a.fmt.sepCode > b.fmt.sepCode ||
        (a.fmt.sepCode == b.fmt.sepCode && a.timeOfDayKey > b.timeOfDayKey)))

/-- The text `new Date(ms).toISOString()` stores. -/
def DbTime.isoAt (ms : Nat) : DbTime := ⟨.iso, ms⟩

/-- The text SQLite's `datetime('now')` / `CURRENT_TIMESTAMP` produces at
instant `now`. -/
def DbTime.sqliteNow (now : Nat) : DbTime := ⟨.sqlite, now⟩

/-- `SESSION_DURATION_MS` of auth.js: 7 days in milliseconds. -/
def SESSION_DURATION_MS : Nat := 7 * 24 * 60 * 60 * 1000

/-- `VERIFICATION_EXPIRY_MS` of auth.js: 24 hours in milliseconds. -/
def VERIFICATION_EXPIRY_MS : Nat := 24 * 60 * 60 * 1000

/-- `PASSWORD_RESET_EXPIRY_MS` of auth.js: 1 hour in milliseconds. -/
def PASSWORD_RESET_EXPIRY_MS : Nat := 60 * 60 * 1000

/-- auth.js `generateSessionExpiry`: ISO text for now + 7 days. -/
def generateSessionExpiry (now : Nat) : DbTime :=
  DbTime.isoAt (now + SESSION_DURATION_MS)

/-- auth.js `generateVerificationExpiry`: ISO text for now + 24 hours. -/
def generateVerificationExpiry (now : Nat) : DbTime :=
  DbTime.isoAt (now + VERIFICATION_EXPIRY_MS)

/-- auth.js `generatePasswordResetExpiry`: ISO text for now + 1 hour. -/
def generatePasswordResetExpiry (now : Nat) : DbTime :=
  DbTime.isoAt (now + PASSWORD_RESET_EXPIRY_MS)

/-- auth.js `PASSWORD_MIN_LENGTH`. -/
def PASSWORD_MIN_LENGTH : Nat := 12

/-- The character codes of the fixed punctuation set accepted by the symbol
rule of `validatePassword` in auth.js, in the order they appear in the
character class, i.e. the characters
exclamation at hash dollar percent caret ampersand star parens underscore
plus hyphen equals square-brackets curly-brackets pipe semicolon colon
apostrophe comma period angle-brackets slash question backslash backquote
tilde double-quote. -/
def symbolCodes : List Nat :=
  [33, 64, 35, 36, 37, 94, 38, 42, 40, 41, 95, 43, 45, 61, 91, 93,
   123, 125, 124, 59, 58, 39, 44, 46, 60, 62, 47, 63, 92, 96, 126, 34]

/-- The symbol characters themselves. -/
def symbolChars : List Char := symbolCodes.map Char.ofNat

/-- Test of the regex character class `[a-zA-Z]`. -/
def isLetterChar (c : Char) : Bool :=
  (97 ≤ c.toNat && c.toNat ≤ 122) || (65 ≤ c.toNat && c.toNat ≤ 90)

/-- Test of the regex character class `[0-9]`. -/
def isDigitChar (c : Char) : Bool :=
  48 ≤ c.toNat && c.toNat ≤ 57

/-- Membership in the fixed punctuation class of `validatePassword`. -/
def isSymbolChar (c : Char) : Bool :=
  symbolCodes.contains c.toNat

/-- Error message of the length rule (the template interpolates
`PASSWORD_MIN_LENGTH`). -/
def msgLength : String :=
  "Password must be at least " ++ toString PASSWORD_MIN_LENGTH ++
    " characters long"

/-- Error message of the letter rule. -/
def msgLetter : String := "Password must contain at least one letter"

/-- Error message of the digit rule. -/
def msgNumber : String := "Password must contain at least one number"

/-- Error message of the symbol rule (the parenthesis lists the punctuation
set verbatim). -/
def msgSymbol : String :=
  "Password must contain at least one symbol (" ++ String.mk symbolChars ++ ")"

/-- Error message for missing / empty / non-string input. -/
def msgRequired : String := "Password is required"

/-- auth.js `validatePassword`.  The input is `none` when the JavaScript
argument is absent or not a string; `some ""` is the empty string (also
falsy in JavaScript, hence also the single required error).  Each of the
four rules is tested independently and pushes its own message; the result
is valid exactly when no message was pushed. -/
def validatePassword (password : Option String) : Bool × List String :=
  match password with
  | none => (false, [msgRequired])
  | some p =>
    if p = "" then (false, [msgRequired])
    else
      let errors :=
        (if p.length < PASSWORD_MIN_LENGTH then [msgLength] else []) ++
        (if p.data.any isLetterChar then [] else [msgLetter]) ++
        (if p.data.any isDigitChar then [] else [msgNumber]) ++
        (if p.data.any isSymbolChar then [] else [msgSymbol])
      (errors.isEmpty, errors)

/-- ASCII lower-casing of one character (the effect of JavaScript
`toLowerCase` on the ASCII data handled here). -/
def lowerChar (c : Char) : Char :=
  if 65 ≤ c.toNat && c.toNat ≤ 90 then Char.ofNat (c.toNat + 32) else c

/-- ASCII lower-casing of a string. -/
def strLower (s : String) : String := String.mk (s.data.map lowerChar)

/-- Whitespace test for `trim`. -/
def isWsChar (c : Char) : Bool :=
  c.toNat == 32 || (9 ≤ c.toNat && c.toNat ≤ 13)

/-- JavaScript `trim`: strip leading and trailing whitespace. -/
def strTrim (s : String) : String :=
  String.mk (((s.data.dropWhile isWsChar).reverse.dropWhile isWsChar).reverse)

/-- database.js `SUPERUSER_EMAILS` (hardcoded allow-list). -/
def SUPERUSER_EMAILS : List String := ["castiglionemaldonado@gmail.com"]

/-- database.js `isSuperuser`: false on falsy input, otherwise membership of
the lowercased email in the hardcoded allow-list.  The stored `is_superuser`
column plays no part in this function. -/
def isSuperuser (email : String) : Bool :=
  if email = "" then false else SUPERUSER_EMAILS.contains (strLower email)

-- ============================================
-- Table rows
-- ============================================

/-- A row of the `visitors` table. -/
structure Visitor where
  id : Nat
  fingerprint : String
  ip_address : Option String
  user_agent : Option String
  language : Option String
  timezone : Option String
  screen_resolution : Option String
  platform : Option String
  referrer : Option String
  query_count : Nat
  first_seen : DbTime
  last_seen : DbTime
deriving DecidableEq, Repr

/-- A row of the `users` table (integer-affinity flags kept as `Nat`,
as stored). -/
structure User where
  id : Nat
  email : String
  password_hash : String
  email_verified : Nat
  verification_token : Option String
  verification_expires : Option DbTime
  tier : String
  visitor_id : Option Nat
  is_superuser : Nat
  created_at : DbTime
  last_login : Option DbTime
deriving DecidableEq, Repr

/-- A row of the `sessions` table. -/
structure Session where
  id : Nat
  user_id : Nat
  token : String
  ip_address : Option String
  user_agent : Option String
  expires_at : DbTime
  created_at : DbTime
deriving DecidableEq, Repr

/-- A row of the `password_resets` table (`used` is the 0/1 column). -/
structure PasswordReset where
  id : Nat
  user_id : Nat
  token : String
  expires_at : DbTime
  used : Bool
  created_at : DbTime
deriving DecidableEq, Repr

/-- A row of the `query_log` table. -/
structure QueryLogEntry where
  id : Nat
  visitor_id : Option Nat
  user_id : Option Nat
  address : String
  blockchain : Option String
  query_type : Option String
  ip_address : Option String
  user_agent : Option String
  response_status : Option String
  created_at : DbTime
deriving DecidableEq, Repr

/-- The persistent store: the five tables plus the AUTOINCREMENT counters. -/
structure Db where
  visitors : List Visitor
  users : List User
  sessions : List Session
  resets : List PasswordReset
  queryLog : List QueryLogEntry
  nextVisitorId : Nat
  nextUserId : Nat
  nextSessionId : Nat
  nextResetId : Nat
  nextLogId : Nat
deriving DecidableEq, Repr

-- ============================================
-- Visitor operations (database.js)
-- ============================================

/-- SQL `COALESCE(?, column)`: the bound parameter when non-NULL, else the
current column value. -/
def coalesce (param current : Option String) : Option String :=
  match param with
  | some x => some x
  | none => current

/-- JavaScript `Math.max(0, x)`. -/
def jsMax0 (x : Int) : Int := max 0 x

/-- Input record of `upsertVisitor`. -/
structure VisitorData where
  fingerprint : String
  ip_address : Option String
  user_agent : Option String
  language : Option String
  timezone : Option String
  screen_resolution : Option String
  platform : Option String
  referrer : Option String
deriving DecidableEq, Repr

/-- Return value of `upsertVisitor`. -/
structure UpsertResult where
  id : Nat
  fingerprint : String
  query_count : Nat
  queries_remaining : Int
  is_new : Bool
deriving DecidableEq, Repr

/-- database.js `getVisitorByFingerprint`. -/
def getVisitorByFingerprint (st : Db) (fingerprint : String) : Option Visitor :=
  st.visitors.find? (fun v => v.fingerprint == fingerprint)

/-- database.js `getVisitorById`. -/
def getVisitorById (st : Db) (id : Nat) : Option Visitor :=
  st.visitors.find? (fun v => v.id == id)

/-- database.js `upsertVisitor`: if a row with the fingerprint exists,
refresh `last_seen` and COALESCE the network metadata onto it and report its
(unchanged) `query_count`; otherwise insert a fresh row with
`query_count = 0`. -/
def upsertVisitor (st : Db) (vd : VisitorData) (now : Nat) :
    Db × UpsertResult :=
  match st.visitors.find? (fun v => v.fingerprint == vd.fingerprint) with
  | some existing =>
    let visitors := st.visitors.map (fun v =>
      if v.fingerprint == vd.fingerprint then
        { v with
          last_seen := DbTime.sqliteNow now,
          ip_address := coalesce vd.ip_address v.ip_address,
          user_agent := coalesce vd.user_agent v.user_agent }
      else v)
    ({ st with visitors := visitors },
     { id := existing.id,
       fingerprint := existing.fingerprint,
       query_count := existing.query_count,
       queries_remaining := jsMax0 (3 - (existing.query_count : Int)),
       is_new := false })
  | none =>
    let v : Visitor :=
      { id := st.nextVisitorId,
        fingerprint := vd.fingerprint,
        ip_address := vd.ip_address,
        user_agent := vd.user_agent,
        language := vd.language,
        timezone := vd.timezone,
        screen_resolution := vd.screen_resolution,
        platform := vd.platform,
        referrer := vd.referrer,
        query_count := 0,
        first_seen := DbTime.sqliteNow now,
        last_seen := DbTime.sqliteNow now }
    ({ st with
        visitors := st.visitors ++ [v],
        nextVisitorId := st.nextVisitorId + 1 },
     { id := st.nextVisitorId,
       fingerprint := vd.fingerprint,
       query_count := 0,
       queries_remaining := 3,
       is_new := true })

/-- database.js `incrementVisitorQueryCount`: atomic
`UPDATE ... SET query_count = query_count + 1 WHERE id = ?`, then re-read the
row and return its `query_count` (0 if the row does not exist). -/
def incrementVisitorQueryCount (st : Db) (visitorId : Nat) : Db × Nat :=
  let st' : Db :=
    { st with
        visitors := st.visitors.map (fun v =>
          if v.id == visitorId then { v with query_count := v.query_count + 1 }
          else v) }
  match getVisitorById st' visitorId with
  | some v => (st', v.query_count)
  | none => (st', 0)

-- ============================================
-- User operations (database.js)
-- ============================================

/-- ASCII-case-insensitive equality, the effect of `COLLATE NOCASE` on the
`email` column. -/
def eqNoCase (a b : String) : Bool := strLower a == strLower b

/-- database.js `getUserByEmail` (the `email` column carries
`COLLATE NOCASE`). -/
def getUserByEmail (st : Db) (email : String) : Option User :=
  st.users.find? (fun u => eqNoCase u.email email)

/-- database.js `getUserById`. -/
def getUserById (st : Db) (id : Nat) : Option User :=
  st.users.find? (fun u => u.id == id)

/-- database.js `createUser` (uniqueness conflicts are not modelled; the
register handler checks for an existing email first). -/
def createUser (st : Db) (email password_hash : String)
    (visitor_id : Option Nat) (verification_token : String)
    (verification_expires : DbTime) (now : Nat) : Db × Nat :=
  let u : User :=
    { id := st.nextUserId,
      email := email,
      password_hash := password_hash,
      email_verified := 0,
      verification_token := some verification_token,
      verification_expires := some verification_expires,
      tier := "free",
      visitor_id := visitor_id,
      is_superuser := 0,
      created_at := DbTime.sqliteNow now,
      last_login := none }
  ({ st with users := st.users ++ [u], nextUserId := st.nextUserId + 1 },
   st.nextUserId)

/-- database.js `withSuperuserStatus`: overrides the `is_superuser` field
with 1 when the email is in the allow-list, else keeps the stored flag
(`user.is_superuser || 0`; the stored flag is already a `Nat` here). -/
def withSuperuserStatus (u : Option User) : Option User :=
  match u with
  | none => none
  | some u =>
    some { u with is_superuser := if isSuperuser u.email then 1 else u.is_superuser }

/-- database.js `verifyUserEmail`: find a row whose verification token
matches, is unexpired and still unverified; mark it verified and clear the
token. -/
def verifyUserEmail (st : Db) (token : String) (now : Nat) : Db × Bool :=
  match st.users.find? (fun u =>
      u.verification_token == some token &&
      (match u.verification_expires with
       | some e => dbTimeGt e (DbTime.sqliteNow now)
       | none => false) &&
      u.email_verified == 0) with
  | none => (st, false)
  | some u =>
    ({ st with users := st.users.map (fun x =>
        if x.id == u.id then
          { x with
            email_verified := 1,
            verification_token := none,
            verification_expires := none }
        else x) }, true)

/-- database.js `updateUserLastLogin`. -/
def updateUserLastLogin (st : Db) (userId : Nat) (now : Nat) : Db :=
  { st with users := st.users.map (fun u =>
      if u.id == userId then { u with last_login := some (DbTime.sqliteNow now) }
      else u) }

/-- database.js `updateUserPassword`. -/
def updateUserPassword (st : Db) (userId : Nat) (passwordHash : String) : Db :=
  { st with users := st.users.map (fun u =>
      if u.id == userId then { u with password_hash := passwordHash } else u) }

/-- auth.js `sanitizeUser` output shape: the public projection of a user. -/
structure SanitizedUser where
  id : Nat
  email : String
  email_verified : Bool
  tier : String
  is_superuser : Bool
  created_at : DbTime
  last_login : Option DbTime
deriving DecidableEq, Repr

/-- auth.js `sanitizeUser`: null in, null out; otherwise the public
projection.  Its `is_superuser` field is `db.isSuperuser(user.email)` — the
hardcoded allow-list alone. -/
def sanitizeUser (u : Option User) : Option SanitizedUser :=
  match u with
  | none => none
  | some u =>
    some { id := u.id,
           email := u.email,
           email_verified := u.email_verified != 0,
           tier := u.tier,
           is_superuser := isSuperuser u.email,
           created_at := u.created_at,
           last_login := u.last_login }

-- ============================================
-- Session operations (database.js)
-- ============================================

/-- database.js `createSession`. -/
def createSession (st : Db) (user_id : Nat) (token : String)
    (ip_address user_agent : Option String) (expires_at : DbTime)
    (now : Nat) : Db × Nat :=
  let s : Session :=
    { id := st.nextSessionId,
      user_id := user_id,
      token := token,
      ip_address := ip_address,
      user_agent := user_agent,
      expires_at := expires_at,
      created_at := DbTime.sqliteNow now }
  ({ st with sessions := st.sessions ++ [s],
             nextSessionId := st.nextSessionId + 1 },
   st.nextSessionId)

/-- The row shape returned by `getSessionByToken` (`s.*` joined with a few
user columns). -/
structure SessionRow where
  session : Session
  email : String
  email_verified : Nat
  tier : String
deriving DecidableEq, Repr

/-- database.js `getSessionByToken`: the session whose token matches and
whose stored `expires_at` text compares (byte-wise) greater than
`datetime('now')`, joined with its owning user. -/
def getSessionByToken (st : Db) (token : String) (now : Nat) :
    Option SessionRow :=
  match st.sessions.find? (fun s =>
      s.token == token && dbTimeGt s.expires_at (DbTime.sqliteNow now)) with
  | none => none
  | some s =>
    match st.users.find? (fun u => u.id == s.user_id) with
    | none => none
    | some u => some ⟨s, u.email, u.email_verified, u.tier⟩

/-- database.js `deleteSession` (logout). -/
def deleteSession (st : Db) (token : String) : Db :=
  { st with sessions := st.sessions.filter (fun s => !(s.token == token)) }

/-- database.js `deleteUserSessions`. -/
def deleteUserSessions (st : Db) (userId : Nat) : Db :=
  { st with sessions := st.sessions.filter (fun s => !(s.user_id == userId)) }

/-- database.js `cleanExpiredSessions`:
`DELETE FROM sessions WHERE expires_at <= datetime('now')`. -/
def cleanExpiredSessions (st : Db) (now : Nat) : Db :=
  { st with sessions := st.sessions.filter (fun s =>
      dbTimeGt s.expires_at (DbTime.sqliteNow now)) }

-- ============================================
-- Query log operations (database.js)
-- ============================================

/-- JavaScript `x || null` applied to a nullable integer (0 is falsy). -/
def jsOrNull (x : Option Nat) : Option Nat :=
  match x with
  | some 0 => none
  | _ => x

/-- Input record of `logQuery`. -/
structure QueryData where
  visitor_id : Option Nat
  user_id : Option Nat
  address : String
  blockchain : Option String
  query_type : Option String
  ip_address : Option String
  user_agent : Option String
  response_status : Option String
deriving DecidableEq, Repr

/-- database.js `logQuery`: insert one `query_log` row (with the
`visitor_id || null` / `user_id || null` coercions of the source) and return
its id. -/
def logQuery (st : Db) (q : QueryData) (now : Nat) : Db × Nat :=
  let e : QueryLogEntry :=
    { id := st.nextLogId,
      visitor_id := jsOrNull q.visitor_id,
      user_id := jsOrNull q.user_id,
      address := q.address,
      blockchain := q.blockchain,
      query_type := q.query_type,
      ip_address := q.ip_address,
      user_agent := q.user_agent,
      response_status := q.response_status,
      created_at := DbTime.sqliteNow now }
  ({ st with queryLog := st.queryLog ++ [e], nextLogId := st.nextLogId + 1 },
   st.nextLogId)

/-- SQL `column = parameter` on nullable integers: true only when both sides
are non-NULL and equal (a NULL on either side makes the comparison NULL,
which the WHERE clause treats as not satisfied). -/
def sqlEqOpt (a b : Option Nat) : Bool :=
  match a, b with
  | some x, some y => x == y
  | _, _ => false

/-- The WHERE predicate of the subquery in `updateQueryResult`:
`address = ? AND (user_id = ? OR visitor_id = ?)`. -/
def qlMatches (uid vid : Option Nat) (address : String)
    (e : QueryLogEntry) : Bool :=
  e.address == address &&
    (sqlEqOpt e.user_id uid || sqlEqOpt e.visitor_id vid)

/-- `ORDER BY created_at DESC LIMIT 1` over the matching rows: a row with
maximal `created_at` (on equal keys SQLite's choice is unspecified; this
model keeps the last-inserted one). -/
def latestBy (l : List QueryLogEntry) : Option QueryLogEntry :=
  l.foldl (fun acc e =>
    match acc with
    | none => some e
    | some b => if dbTimeGt b.created_at e.created_at then some b else some e)
    none

/-- database.js `updateQueryResult`: set `response_status` on the most
recent `query_log` row matching the (address, requester) pair; report
whether any row changed. -/
def updateQueryResult (st : Db) (user_id visitor_id : Option Nat)
    (address response_status : String) : Db × Bool :=
  match latestBy (st.queryLog.filter (qlMatches user_id visitor_id address)) with
  | none => (st, false)
  | some tgt =>
    ({ st with queryLog := st.queryLog.map (fun e =>
        if e.id == tgt.id then { e with response_status := some response_status }
        else e) },
     true)

-- ============================================
-- Password reset operations (database.js)
-- ============================================

/-- database.js `createPasswordReset`: first
`UPDATE password_resets SET used = 1 WHERE user_id = ? AND used = 0`, then
insert the fresh token row (`used` defaults to 0). -/
def createPasswordReset (st : Db) (userId : Nat) (token : String)
    (expiresAt : DbTime) (now : Nat) : Db × Nat :=
  let invalidated := st.resets.map (fun r =>
    if r.user_id == userId && r.used == false then { r with used := true }
    else r)
  let newReset : PasswordReset :=
    { id := st.nextResetId,
      user_id := userId,
      token := token,
      expires_at := expiresAt,
      used := false,
      created_at := DbTime.sqliteNow now }
  ({ st with resets := invalidated ++ [newReset],
             nextResetId := st.nextResetId + 1 },
   st.nextResetId)

/-- The row shape returned by `getPasswordResetByToken` (`pr.*` joined with
the user's email). -/
structure ResetRow where
  reset : PasswordReset
  email : String
deriving DecidableEq, Repr

/-- database.js `getPasswordResetByToken`: token match, stored expiry text
byte-wise greater than `datetime('now')`, and `used = 0`, joined with the
owning user. -/
def getPasswordResetByToken (st : Db) (token : String) (now : Nat) :
    Option ResetRow :=
  match st.resets.find? (fun r =>
      r.token == token && dbTimeGt r.expires_at (DbTime.sqliteNow now) &&
        r.used == false) with
  | none => none
  | some r =>
    match st.users.find? (fun u => u.id == r.user_id) with
    | none => none
    | some u => some ⟨r, u.email⟩

/-- database.js `markPasswordResetUsed`. -/
def markPasswordResetUsed (st : Db) (token : String) : Db :=
  { st with resets := st.resets.map (fun r =>
      if r.token == token then { r with used := true } else r) }

-- ============================================
-- HTTP handlers (server.js)
-- ============================================

/-- The `if (token) { const session = getSessionByToken(token); if (session)
... }` pattern shared by the handlers: the session row the request's bearer
token resolves to, if any. -/
def resolvedSession (st : Db) (token : Option String) (now : Nat) :
    Option SessionRow :=
  match token with
  | none => none
  | some t => getSessionByToken st t now

/-- JavaScript falsiness of a nullable integer (`!x` is true for both null
and 0). -/
def jsFalsyNat (x : Option Nat) : Bool :=
  match x with
  | none => true
  | some n => n == 0

/-- Serialized response of `POST /api/query` (absent JSON fields are
`none`). -/
structure QueryResponse where
  status : Nat
  allowed : Option Bool
  authenticated : Option Bool
  queries_remaining : Option Int
  require_login : Option Bool
  error : Option String
  message : Option String
deriving DecidableEq, Repr

/-- The request data of `POST /api/query` (the `X-Visitor-Id` header is kept
already parsed: `none` for a missing/empty header and for a non-numeric
value `parseInt` turned into NaN the lookup below fails the same way as an
unknown id would). -/
structure QueryRequest where
  address : Option String
  token : Option String
  visitorId : Option Nat
deriving DecidableEq, Repr

/-- Response of the branch rejecting a missing address. -/
def respNoAddress : QueryResponse :=
  ⟨400, none, none, none, none, some "Address is required", none⟩

/-- Response of the authenticated branch. -/
def respAuthenticated : QueryResponse :=
  ⟨200, some true, some true, none, none, none, none⟩

/-- Response of the branch rejecting a missing visitor id. -/
def respNoVisitor : QueryResponse :=
  ⟨400, none, none, none, some true,
   some "Visitor ID required for anonymous queries", none⟩

/-- Response of the branch rejecting an unknown visitor id. -/
def respBadVisitor : QueryResponse :=
  ⟨400, none, none, none, some true, some "Invalid visitor ID", none⟩

/-- Response of the quota-exhausted branch. -/
def respQuotaReached : QueryResponse :=
  ⟨200, some false, none, none, some true, none,
   some "Free query limit reached. Please create an account to continue."⟩

/-- Response of the allowed anonymous branch. -/
def respAnonAllowed (newCount : Nat) : QueryResponse :=
  ⟨200, some true, some false, some (jsMax0 (3 - (newCount : Int))), none,
   none, none⟩

/-- server.js `app.post('/api/query')`: the quota & auth decision.  An
authenticated caller is always allowed and logged under their user id; an
anonymous caller needs a resolvable visitor id, is rejected without any
mutation once `query_count >= 3`, and otherwise gets the counter
incremented and the query logged under the visitor id. -/
def apiQuery (st : Db) (req : QueryRequest) (now : Nat)
    (ip ua : Option String) : Db × QueryResponse :=
  match req.address with
  | none => (st, respNoAddress)
  | some address =>
    if address = "" then (st, respNoAddress)
    else
      match resolvedSession st req.token now with
      | some srow =>
        let st := (logQuery st
          { visitor_id := none,
            user_id := some srow.session.user_id,
            address := address,
            blockchain := none,
            query_type := none,
            ip_address := ip,
            user_agent := ua,
            response_status := some "success" } now).1
        (st, respAuthenticated)
      | none =>
        match req.visitorId with
        | none => (st, respNoVisitor)
        | some vid =>
          match getVisitorById st vid with
          | none => (st, respBadVisitor)
          | some visitor =>
            if visitor.query_count ≥ 3 then (st, respQuotaReached)
            else
              let r := incrementVisitorQueryCount st visitor.id
              let newCount := r.2
              let st := (logQuery r.1
                { visitor_id := some visitor.id,
                  user_id := none,
                  address := address,
                  blockchain := none,
                  query_type := none,
                  ip_address := ip,
                  user_agent := ua,
                  response_status := some "success" } now).1
              (st, respAnonAllowed newCount)

/-- Serialized response of `POST /api/query/result`. -/
structure QueryResultResponse where
  status : Nat
  success : Bool
  error : Option String
deriving DecidableEq, Repr

/-- The valid `response_status` values the handler accepts. -/
def validStatuses : List String := ["found", "no_data", "invalid"]

/-- server.js `app.post('/api/query/result')`: derive the requester identity
(user id from the bearer token when it resolves; else the parsed
`X-Visitor-Id` header), call `updateQueryResult`, and answer success
regardless of whether any row was updated. -/
def apiQueryResult (st : Db) (address response_status : Option String)
    (token : Option String) (visitorHeader : Option Nat) (now : Nat) :
    Db × QueryResultResponse :=
  match address, response_status with
  | some a, some rs =>
    if a = "" || rs = "" then
      (st, ⟨400, false, some "Address and response_status are required"⟩)
    else if !(validStatuses.contains rs) then
      (st, ⟨400, false, some "Invalid response_status value"⟩)
    else
      let user_id : Option Nat :=
        match resolvedSession st token now with
        | some srow => some srow.session.user_id
        | none => none
      let visitor_id : Option Nat :=
        if jsFalsyNat user_id then visitorHeader else none
      let st := (updateQueryResult st user_id visitor_id a rs).1
      (st, ⟨200, true, none⟩)
  | _, _ => (st, ⟨400, false, some "Address and response_status are required"⟩)

/-- Serialized response of `POST /api/auth/forgot-password`. -/
structure ForgotPwResponse where
  status : Nat
  success : Bool
  message : Option String
  error : Option String
deriving DecidableEq, Repr

/-- server.js `app.post('/api/auth/forgot-password')`: reject a missing
email with 400; otherwise answer the same success payload whether or not
`getUserByEmail` finds an account, creating a reset token only when it
does.  The freshly generated token value (`auth.generateToken()`) is passed
in as `tok`. -/
def apiForgotPassword (st : Db) (email : Option String) (now : Nat)
    (tok : String) : Db × ForgotPwResponse :=
  match email with
  | none => (st, ⟨400, false, none, some "Email is required"⟩)
  | some e =>
    if e = "" then (st, ⟨400, false, none, some "Email is required"⟩)
    else
      match getUserByEmail st (strLower (strTrim e)) with
      | none =>
        (st, ⟨200, true,
          some "If an account exists, a reset email has been sent", none⟩)
      | some u =>
        let st :=
          (createPasswordReset st u.id tok (generatePasswordResetExpiry now)
            now).1
        (st, ⟨200, true,
          some "If an account exists, a reset email has been sent", none⟩)

/-- Serialized response of `POST /api/auth/reset-password`. -/
structure ResetPwResponse where
  status : Nat
  success : Bool
  error : Option String
deriving DecidableEq, Repr

/-- server.js `app.post('/api/auth/reset-password')`: validate input and the
reset token, then update the password hash, mark the token used and delete
all of the owning user's sessions.  `newHash` stands for the awaited
`auth.hashPassword(password)` result (bcrypt, not modelled further). -/
def apiResetPassword (st : Db) (token password : Option String) (now : Nat)
    (newHash : String) : Db × ResetPwResponse :=
  match token, password with
  | some t, some p =>
    if t = "" || p = "" then
      (st, ⟨400, false, some "Token and password are required"⟩)
    else if !(validatePassword (some p)).1 then
      (st, ⟨400, false, some "Password does not meet requirements"⟩)
    else
      match getPasswordResetByToken st t now with
      | none => (st, ⟨400, false, some "Invalid or expired reset token"⟩)
      | some row =>
        let st := updateUserPassword st row.reset.user_id newHash
        let st := markPasswordResetUsed st t
        let st := deleteUserSessions st row.reset.user_id
        (st, ⟨200, true, none⟩)
  | _, _ => (st, ⟨400, false, some "Token and password are required"⟩)

/-- server.js `app.get('/api/queries/history/all')`, authorization part:
401 without a resolvable unexpired session, 403 when the session's email is
not in the superuser allow-list, 200 otherwise (the history payload itself
is outside this claim's scope). -/
def apiQueriesHistoryAllStatus (st : Db) (token : Option String)
    (now : Nat) : Nat :=
  match token with
  | none => 401
  | some t =>
    if t = "" then 401
    else
      match getSessionByToken st t now with
      | none => 401
      | some row => if isSuperuser row.email then 200 else 403

-- ============================================
-- Theorems
-- ============================================

/-- Claim C7: `validatePassword` accepts exactly the strings of length at
least 12 that contain a letter, a digit and a symbol of the fixed
punctuation set; the four rules are independent (each violated rule
contributes its own message, each satisfied rule contributes none), and
missing / non-string / empty input yields the single required error. -/
theorem c7_validate_password :
    validatePassword none = (false, [msgRequired]) ∧
    validatePassword (some "") = (false, [msgRequired]) ∧
    ∀ s : String, s ≠ "" →
      ((validatePassword (some s)).1 = true ↔
        PASSWORD_MIN_LENGTH ≤ s.length ∧ s.data.any isLetterChar = true ∧
          s.data.any isDigitChar = true ∧ s.data.any isSymbolChar = true) ∧
      (msgLength ∈ (validatePassword (some s)).2 ↔
        s.length < PASSWORD_MIN_LENGTH) ∧
      (msgLetter ∈ (validatePassword (some s)).2 ↔
        s.data.any isLetterChar = false) ∧
      (msgNumber ∈ (validatePassword (some s)).2 ↔
        s.data.any isDigitChar = false) ∧
      (msgSymbol ∈ (validatePassword (some s)).2 ↔
        s.data.any isSymbolChar = false) ∧
      msgRequired ∉ (validatePassword (some s)).2 := by
  have d1 : msgLength ≠ msgLetter := by decide
  have d2 : msgLength ≠ msgNumber := by decide
  have d3 : msgLength ≠ msgSymbol := by decide
  have d4 : msgLetter ≠ msgNumber := by decide
  have d5 : msgLetter ≠ msgSymbol := by decide
  have d6 : msgNumber ≠ msgSymbol := by decide
  have d7 : msgRequired ≠ msgLength := by decide
  have d8 : msgRequired ≠ msgLetter := by decide
  have d9 : msgRequired ≠ msgNumber := by decide
  have d10 : msgRequired ≠ msgSymbol := by decide
  have e1 : msgLetter ≠ msgLength := Ne.symm d1
  have e2 : msgNumber ≠ msgLength := Ne.symm d2
  have e3 : msgSymbol ≠ msgLength := Ne.symm d3
  have e4 : msgNumber ≠ msgLetter := Ne.symm d4
  have e5 : msgSymbol ≠ msgLetter := Ne.symm d5
  have e6 : msgSymbol ≠ msgNumber := Ne.symm d6
  refine ⟨rfl, rfl, ?_⟩
  intro s hs
  rw [show (PASSWORD_MIN_LENGTH ≤ s.length) = ¬(s.length < PASSWORD_MIN_LENGTH)
    from (propext Nat.not_lt).symm]
  simp only [validatePassword, if_neg hs]
  by_cases hL : s.length < PASSWORD_MIN_LENGTH <;>
    cases hA : s.data.any isLetterChar <;>
    cases hD : s.data.any isDigitChar <;>
    cases hS : s.data.any isSymbolChar <;>
    simp_all [List.mem_append]

/-- Witness for C7 at the concrete password `abcd1234!@#$`. -/
theorem c7_validate_password_witness :
    (validatePassword (some "abcd1234!@#$")).1 = true ↔
      PASSWORD_MIN_LENGTH ≤ ("abcd1234!@#$" : String).length ∧
        ("abcd1234!@#$" : String).data.any isLetterChar = true ∧
        ("abcd1234!@#$" : String).data.any isDigitChar = true ∧
        ("abcd1234!@#$" : String).data.any isSymbolChar = true :=
  (c7_validate_password.2.2 "abcd1234!@#$" (by decide)).1

/-- The superuser formula the spec states (for comparison with the code):
the logical OR of the stored `is_superuser` flag and membership of the
email in the hardcoded allow-list. -/
def superuserOrSpec (u : User) : Bool :=
  (u.is_superuser != 0) || isSuperuser u.email

/-- A user whose stored `is_superuser` flag is set but whose email is not
in the allow-list. -/
def c3User : User :=
  ⟨7, "flagged@example.com", "hash", 1, none, none, "free", none, 1,
   ⟨.sqlite, 0⟩, none⟩

/-- A valid session of `c3User`. -/
def c3Session : Session :=
  ⟨1, 7, "c3token", none, none, generateSessionExpiry 0, ⟨.sqlite, 0⟩⟩

/-- A store containing only `c3User` and their session. -/
def c3Db : Db := ⟨[], [c3User], [c3Session], [], [], 1, 8, 2, 1, 1⟩

/-- Claim C3 counterexample: `c3User` has the stored flag set (so the OR the
claim states is true), yet the sanitized view reports `is_superuser = false`
and the all-users history endpoint answers 403 to their valid session — the
reported status is not the OR of flag and allow-list membership. -/
theorem c3_superuser_reported_cex :
    superuserOrSpec c3User = true ∧
    (sanitizeUser (some c3User)).map SanitizedUser.is_superuser = some false ∧
    apiQueriesHistoryAllStatus c3Db (some "c3token") 0 = 403 := by
  decide

/-- Claim C3 (amended): the superuser status reported by `sanitizeUser` and
enforced by the all-users history endpoint equals allow-list membership of
the email alone — the stored `is_superuser` flag is ignored there; the OR of
flag and allow-list is computed only by the `withSuperuserStatus` helper,
which neither of the claimed places uses. -/
theorem c3_superuser_allowlist_only :
    ∀ (u : User) (st : Db) (t : String) (now : Nat) (row : SessionRow),
      (sanitizeUser (some u)).map SanitizedUser.is_superuser =
        some (isSuperuser u.email) ∧
      (withSuperuserStatus (some u)).map (fun x => x.is_superuser != 0) =
        some (superuserOrSpec u) ∧
      (getSessionByToken st t now = some row → t ≠ "" →
        (apiQueriesHistoryAllStatus st (some t) now = 200 ↔
          isSuperuser row.email = true) ∧
        (apiQueriesHistoryAllStatus st (some t) now = 403 ↔
          isSuperuser row.email = false)) := by
  intro u st t now row
  refine ⟨rfl, ?_, ?_⟩
  · cases h : isSuperuser u.email <;>
      simp [withSuperuserStatus, superuserOrSpec, h]
  · intro hrow ht
    cases hsu : isSuperuser row.email <;>
      simp [apiQueriesHistoryAllStatus, if_neg ht, hrow, hsu]

/-- The allow-listed operator account. -/
def c3AdminUser : User :=
  ⟨9, "castiglionemaldonado@gmail.com", "hash", 1, none, none, "free", none,
   0, ⟨.sqlite, 0⟩, none⟩

/-- A valid session of the operator account. -/
def c3AdminSession : Session :=
  ⟨1, 9, "admintoken", none, none, generateSessionExpiry 0, ⟨.sqlite, 0⟩⟩

/-- A store containing only the operator account and their session. -/
def c3AdminDb : Db := ⟨[], [c3AdminUser], [c3AdminSession], [], [], 1, 10, 2, 1, 1⟩

/-- The joined row `getSessionByToken` returns for the operator session. -/
def c3AdminRow : SessionRow :=
  ⟨c3AdminSession, "castiglionemaldonado@gmail.com", 1, "free"⟩

/-- Witness for the amended C3 at the operator account. -/
theorem c3_superuser_allowlist_only_witness :
    (sanitizeUser (some c3AdminUser)).map SanitizedUser.is_superuser =
      some (isSuperuser c3AdminUser.email) ∧
    (apiQueriesHistoryAllStatus c3AdminDb (some "admintoken") 0 = 200 ↔
      isSuperuser c3AdminRow.email = true) := by
  have h := c3_superuser_allowlist_only c3AdminUser c3AdminDb "admintoken" 0
    c3AdminRow
  exact ⟨h.1, (h.2.2 (by decide) (by decide)).1⟩

/-- The fixed success payload of the forgot-password endpoint. -/
def forgotPwSuccess : ForgotPwResponse :=
  ⟨200, true, some "If an account exists, a reset email has been sent", none⟩

/-- Claim C9: for every request to POST /api/auth/forgot-password with a
non-empty email, the response is the fixed success payload, whatever the
store contents — in particular two runs that differ only in whether an
account with that email exists produce identical response body and
status. -/
theorem c9_forgot_password_uniform :
    ∀ (st : Db) (e : String) (now : Nat) (tok : String), e ≠ "" →
      (apiForgotPassword st (some e) now tok).2 = forgotPwSuccess := by
  intro st e now tok he
  simp only [apiForgotPassword, if_neg he]
  cases h : getUserByEmail st (strLower (strTrim e)) <;> simp [h, forgotPwSuccess]

/-- A store that does contain an account for `user@test.com`. -/
def c9Db : Db :=
  ⟨[], [⟨1, "user@test.com", "h", 1, none, none, "free", none, 0,
     ⟨.sqlite, 0⟩, none⟩], [], [], [], 1, 2, 1, 1, 1⟩

/-- Witness for C9: the account-exists run returns the same fixed payload
(and by the theorem, so does every store without the account). -/
theorem c9_forgot_password_uniform_witness :
    (apiForgotPassword c9Db (some "user@test.com") 0 "rtok").2 =
      forgotPwSuccess :=
  c9_forgot_password_uniform c9Db "user@test.com" 0 "rtok" (by decide)

/-- Claim C10: with no resolvable session and no `X-Visitor-Id` header the
match predicate of `updateQueryResult` (both identity parameters NULL) is
satisfied by no row, so no query-log row is updated — and the endpoint still
answers `success: true` with the store unchanged. -/
theorem c10_no_identity_update_noop :
    ∀ (st : Db) (a rs : String) (tok : Option String) (now : Nat),
      a ≠ "" → validStatuses.contains rs = true →
      resolvedSession st tok now = none →
      (∀ e ∈ st.queryLog, qlMatches none none a e = false) ∧
      apiQueryResult st (some a) (some rs) tok none now =
        (st, ⟨200, true, none⟩) := by
  intro st a rs tok now ha hrs hsess
  have hrs' : rs ≠ "" := by
    intro h
    rw [h] at hrs
    simp [validStatuses] at hrs
  have hmatch : ∀ e ∈ st.queryLog, qlMatches none none a e = false := by
    intro e _
    cases h1 : e.user_id <;> cases h2 : e.visitor_id <;>
      simp [qlMatches, sqlEqOpt, h1, h2]
  have hfil : st.queryLog.filter (qlMatches none none a) = [] := by
    rw [List.filter_eq_nil_iff]
    intro e he
    simp [hmatch e he]
  refine ⟨hmatch, ?_⟩
  simp only [apiQueryResult, ha, hrs', hrs, hsess]
  simp [updateQueryResult, hfil, latestBy, jsFalsyNat]

/-- A store holding a query-log row for address `0xabc` owned by user 1, to
exercise C10 against a non-empty log. -/
def c10Db : Db :=
  ⟨[], [], [], [],
   [⟨1, none, some 1, "0xabc", none, none, none, none, some "success",
     ⟨.sqlite, 0⟩⟩], 1, 1, 1, 1, 2⟩

/-- Witness for C10 at a concrete anonymous, headerless call: the row for
the same address is not touched and the endpoint answers success. -/
theorem c10_no_identity_update_noop_witness :
    (∀ e ∈ c10Db.queryLog, qlMatches none none "0xabc" e = false) ∧
    apiQueryResult c10Db (some "0xabc") (some "found") none none 0 =
      (c10Db, ⟨200, true, none⟩) :=
  c10_no_identity_update_noop c10Db "0xabc" "found" none 0 (by decide)
    (by decide) (by decide)

/-- The account and session used to evaluate the session-expiry boundary. -/
def c6User : User :=
  ⟨1, "a@b.com", "h", 1, none, none, "free", none, 0, ⟨.sqlite, 0⟩, none⟩

/-- A session created at epoch instant 0: its `expires_at` is the ISO text
produced by `generateSessionExpiry 0`, i.e. exactly 7 days later. -/
def c6Session : Session :=
  ⟨1, 1, "c6token", none, none, generateSessionExpiry 0, ⟨.sqlite, 0⟩⟩

/-- Store holding that single user and session. -/
def c6Db : Db := ⟨[], [c6User], [c6Session], [], [], 1, 2, 2, 1, 1⟩

/-- Claim C6 (code-bug evaluation): the session is created with expiry
exactly 7 days after creation (first two conjuncts), and is — as the claim
says — usable at T + 6 days 23 hours; but at T + 7 days 1 minute the lookup
STILL returns the session, contradicting the claimed rejection: the stored
ISO expiry text (`...T...Z`) compares byte-wise greater than SQLite's
space-separated `datetime('now')` text throughout the entire UTC day of the
expiry instant, because `T` (code 84) sorts above space (code 32).  The
lookup only starts failing from the next UTC day (final conjunct). -/
theorem c6_session_expiry_code_bug :
    c6Session.expires_at = generateSessionExpiry 0 ∧
    SESSION_DURATION_MS = 7 * msPerDay ∧
    (getSessionByToken c6Db "c6token"
      (6 * msPerDay + 23 * 60 * 60 * 1000)).isSome = true ∧
    (getSessionByToken c6Db "c6token"
      (7 * msPerDay + 60 * 1000)).isSome = true ∧
    getSessionByToken c6Db "c6token" (8 * msPerDay) = none := by
  decide

/-- Visitor already at the free-query ceiling. -/
def c2Visitor : Visitor :=
  ⟨1, "fp", none, none, none, none, none, none, none, 3,
   ⟨.sqlite, 0⟩, ⟨.sqlite, 0⟩⟩

/-- Store with that visitor and an empty query log. -/
def c2Db : Db := ⟨[c2Visitor], [], [], [], [], 2, 1, 1, 1, 1⟩

/-- An anonymous query request by that visitor. -/
def c2Req : QueryRequest := ⟨some "0xabc", none, some 1⟩

/-- Claim C2 counterexample: this anonymous call is rejected at the quota
ceiling and inserts NO query-log row — not the "exactly one" insertion the
claim states for rejected anonymous calls. -/
theorem c2_rejected_call_not_logged_cex :
    (apiQuery c2Db c2Req 0 none none).2 = respQuotaReached ∧
    (apiQuery c2Db c2Req 0 none none).1.queryLog.length = 0 ∧
    ¬ (apiQuery c2Db c2Req 0 none none).1.queryLog.length =
        c2Db.queryLog.length + 1 := by
  decide

/-- Helper: `find?` by id commutes with mapping an id-preserving function
over the visitor list. -/
theorem find?_id_map (l : List Visitor) (f : Visitor → Visitor)
    (hf : ∀ x, (f x).id = x.id) (vid : Nat) :
    (l.map f).find? (fun x => x.id == vid) =
      (l.find? (fun x => x.id == vid)).map f := by
  induction l with
  | nil => rfl
  | cons x xs ih =>
    by_cases h : x.id == vid
    · simp [List.find?, hf x, h]
    · have hb : (x.id == vid) = false := by simpa using h
      simp [List.find?, hf x, hb, ih]

/-- The row update `incrementVisitorQueryCount` applies. -/
def bumpCount (vid : Nat) (v : Visitor) : Visitor :=
  if v.id == vid then { v with query_count := v.query_count + 1 } else v

/-- Helper: `bumpCount` preserves ids. -/
theorem bumpCount_id (vid : Nat) (x : Visitor) : (bumpCount vid x).id = x.id := by
  by_cases h : x.id == vid <;> simp [bumpCount, h]

/-- Helper: when the visitor exists, the atomic increment updates exactly
that row, returns the post-increment count, and the re-read sees the bumped
row. -/
theorem incrementVisitorQueryCount_spec (st : Db) (vid : Nat) (v : Visitor)
    (h : getVisitorById st vid = some v) :
    incrementVisitorQueryCount st vid =
      ({ st with visitors := st.visitors.map (bumpCount vid) },
       v.query_count + 1) ∧
    getVisitorById (incrementVisitorQueryCount st vid).1 vid =
      some { v with query_count := v.query_count + 1 } := by
  have h' : st.visitors.find? (fun x => x.id == vid) = some v := h
  have hid : (v.id == vid) = true := by simpa using List.find?_some h' 
  have hfind :
      getVisitorById { st with visitors := st.visitors.map (bumpCount vid) } vid =
        some { v with query_count := v.query_count + 1 } := by
    simp only [getVisitorById] at h ⊢
    rw [find?_id_map st.visitors (bumpCount vid) (bumpCount_id vid) vid, h]
    simp [bumpCount, hid]
  constructor
  · simp only [incrementVisitorQueryCount]
    rw [show (fun v => if v.id == vid then
          { v with query_count := v.query_count + 1 } else v) = bumpCount vid
        from rfl]
    rw [hfind]
  · simp only [incrementVisitorQueryCount]
    rw [show (fun v => if v.id == vid then
          { v with query_count := v.query_count + 1 } else v) = bumpCount vid
        from rfl]
    rw [hfind]
    exact hfind

/-- Claim C1: for an anonymous query request (no resolvable session) whose
visitor id resolves to an existing visitor: at `query_count >= 3` the
decision is the quota rejection (`allowed = false`, `require_login = true`)
and the store is returned untouched; below the ceiling the visitor's counter
is incremented by exactly one and the decision is `allowed = true`,
`authenticated = false` with `queries_remaining = max(0, 3 - newCount)`
for the post-increment count (the computation inside
`respAnonAllowed`). -/
theorem c1_anonymous_quota_decision :
    ∀ (st : Db) (req : QueryRequest) (now : Nat) (ip ua : Option String)
      (a : String) (vid : Nat) (v : Visitor),
      req.address = some a → a ≠ "" →
      resolvedSession st req.token now = none →
      req.visitorId = some vid →
      getVisitorById st vid = some v →
      (3 ≤ v.query_count →
        apiQuery st req now ip ua = (st, respQuotaReached)) ∧
      (v.query_count < 3 →
        (apiQuery st req now ip ua).2 =
          respAnonAllowed (v.query_count + 1) ∧
        getVisitorById (apiQuery st req now ip ua).1 vid =
          some { v with query_count := v.query_count + 1 }) := by
  intro st req now ip ua a vid v hA ha hsess hV hvis
  have h' : st.visitors.find? (fun x => x.id == vid) = some v := hvis
  have hvid : v.id = vid := by simpa using List.find?_some h'
  constructor
  · intro hge
    simp only [apiQuery, hA, if_neg ha, hsess, hV, hvis, ge_iff_le,
      if_pos hge]
  · intro hlt
    have hnot : ¬ (3 ≤ v.query_count) := by omega
    have hinc := incrementVisitorQueryCount_spec st vid v hvis
    have hread := hinc.2
    rw [hinc.1] at hread
    simp only [apiQuery, hA, if_neg ha, hsess, hV, hvis, ge_iff_le,
      if_neg hnot, hvid, hinc.1]
    rw [hvid] at hread
    refine ⟨trivial, ?_⟩
    simpa [logQuery, getVisitorById] using hread

/-- A fresh visitor with no queries used. -/
def c1Visitor : Visitor :=
  ⟨1, "fp1", none, none, none, none, none, none, none, 0,
   ⟨.sqlite, 0⟩, ⟨.sqlite, 0⟩⟩

/-- Store containing only that visitor. -/
def c1Db : Db := ⟨[c1Visitor], [], [], [], [], 2, 1, 1, 1, 1⟩

/-- An anonymous request by that visitor. -/
def c1Req : QueryRequest := ⟨some "0xdead", none, some 1⟩

/-- Witness for C1 on the allowed branch at a concrete fresh visitor. -/
theorem c1_anonymous_quota_decision_witness :
    (apiQuery c1Db c1Req 0 none none).2 =
      respAnonAllowed (c1Visitor.query_count + 1) ∧
    getVisitorById (apiQuery c1Db c1Req 0 none none).1 1 =
      some { c1Visitor with query_count := c1Visitor.query_count + 1 } :=
  (c1_anonymous_quota_decision c1Db c1Req 0 none none "0xdead" 1 c1Visitor
    rfl (by decide) (by decide) rfl (by decide)).2 (by decide)

/-- Helper: the `x || null` coercion keeps a positive id. -/
theorem jsOrNull_ne_zero (k : Nat) (hk : k ≠ 0) : jsOrNull (some k) = some k := by
  cases k with
  | zero => exact absurd rfl hk
  | succ m => rfl

/-- Helper: the `x || null` coercion on a null id. -/
theorem jsOrNull_none : jsOrNull none = none := rfl

/-- Helper: the state component of the atomic increment, whatever the
re-read finds. -/
theorem incrementVisitorQueryCount_fst (st : Db) (vid : Nat) :
    (incrementVisitorQueryCount st vid).1 =
      { st with visitors := st.visitors.map (bumpCount vid) } := by
  simp only [incrementVisitorQueryCount]
  split <;> rfl

/-- Claim C2 (amended): in a store whose visitor ids and session owner ids
are positive (as AUTOINCREMENT guarantees), every ALLOWED call of the
query-authorization logic appends exactly one query-log row — under the
user id and no visitor id when authenticated, under the visitor id and no
user id when anonymous — while every rejected call (missing address,
missing or unknown visitor id, quota reached) leaves the query log
untouched. -/
theorem c2_querylog_insertions_amended :
    ∀ (st : Db) (req : QueryRequest) (now : Nat) (ip ua : Option String),
      (∀ v ∈ st.visitors, v.id ≠ 0) →
      (∀ s ∈ st.sessions, s.user_id ≠ 0) →
      ((apiQuery st req now ip ua).2.allowed = some true →
        ∃ e : QueryLogEntry,
          (apiQuery st req now ip ua).1.queryLog = st.queryLog ++ [e] ∧
          (((apiQuery st req now ip ua).2.authenticated = some true ∧
              e.visitor_id = none ∧ e.user_id ≠ none) ∨
           ((apiQuery st req now ip ua).2.authenticated = some false ∧
              e.user_id = none ∧ e.visitor_id ≠ none))) ∧
      ((apiQuery st req now ip ua).2.allowed ≠ some true →
        (apiQuery st req now ip ua).1.queryLog = st.queryLog) := by
  intro st req now ip ua hv hs
  rcases hA : req.address with _ | a
  · simp [apiQuery, hA, respNoAddress]
  by_cases ha : a = ""
  · simp [apiQuery, hA, ha, respNoAddress]
  rcases hsess : resolvedSession st req.token now with _ | srow
  · -- anonymous path
    rcases hV : req.visitorId with _ | vid
    · simp [apiQuery, hA, if_neg ha, hsess, hV, respNoVisitor]
    rcases hvis : getVisitorById st vid with _ | v
    · simp [apiQuery, hA, if_neg ha, hsess, hV, hvis, respBadVisitor]
    have hvis' : st.visitors.find? (fun x => x.id == vid) = some v := hvis
    have hmem : v ∈ st.visitors := List.mem_of_find?_eq_some hvis'
    have hid : v.id ≠ 0 := hv v hmem
    by_cases hq : 3 ≤ v.query_count
    · simp [apiQuery, hA, if_neg ha, hsess, hV, hvis, ge_iff_le, hq,
        respQuotaReached]
    · constructor
      · intro _
        refine ⟨⟨st.nextLogId, some v.id, none, a, none, none, ip, ua,
          some "success", DbTime.sqliteNow now⟩, ?_, Or.inr ⟨?_, rfl, ?_⟩⟩
        · simp [apiQuery, hA, if_neg ha, hsess, hV, hvis, ge_iff_le, hq,
            logQuery, incrementVisitorQueryCount_fst,
            jsOrNull_ne_zero v.id hid, jsOrNull_none]
        · simp [apiQuery, hA, if_neg ha, hsess, hV, hvis, ge_iff_le, hq,
            respAnonAllowed]
        · simp
      · intro hcontra
        exact absurd (by
          simp [apiQuery, hA, if_neg ha, hsess, hV, hvis, ge_iff_le, hq,
            respAnonAllowed]) hcontra
  · -- authenticated path
    have hA2 : ∃ t, req.token = some t := by
      rcases hT : req.token with _ | t
      · rw [hT] at hsess
        exact absurd hsess (by simp [resolvedSession])
      · exact ⟨t, rfl⟩
    rcases hA2 with ⟨t, hT⟩
    rw [hT] at hsess
    simp only [resolvedSession] at hsess
    have hmem : srow.session ∈ st.sessions := by
      rcases h1 : st.sessions.find? (fun s =>
          s.token == t && dbTimeGt s.expires_at (DbTime.sqliteNow now)) with _ | s0
      · simp only [getSessionByToken, h1] at hsess
        cases hsess
      · rcases h2 : st.users.find? (fun u => u.id == s0.user_id) with _ | u
        · simp only [getSessionByToken, h1, h2] at hsess
          cases hsess
        · simp only [getSessionByToken, h1, h2] at hsess
          cases hsess
          exact List.mem_of_find?_eq_some h1
    have huid : srow.session.user_id ≠ 0 := hs srow.session hmem
    have hres : resolvedSession st req.token now = some srow := by
      rw [hT]
      exact hsess
    constructor
    · intro _
      refine ⟨⟨st.nextLogId, none, some srow.session.user_id, a, none, none,
        ip, ua, some "success", DbTime.sqliteNow now⟩, ?_,
        Or.inl ⟨?_, rfl, ?_⟩⟩
      · simp [apiQuery, hA, if_neg ha, hres, logQuery,
          jsOrNull_ne_zero srow.session.user_id huid, jsOrNull_none]
      · simp [apiQuery, hA, if_neg ha, hres, respAuthenticated]
      · simp
    · intro hcontra
      exact absurd (by simp [apiQuery, hA, if_neg ha, hres,
        respAuthenticated]) hcontra

/-- A fresh visitor for the C2 witness. -/
def c2WVisitor : Visitor :=
  ⟨1, "fpw", none, none, none, none, none, none, none, 0,
   ⟨.sqlite, 0⟩, ⟨.sqlite, 0⟩⟩

/-- Store containing only that visitor. -/
def c2WDb : Db := ⟨[c2WVisitor], [], [], [], [], 2, 1, 1, 1, 1⟩

/-- An anonymous request by that visitor. -/
def c2WReq : QueryRequest := ⟨some "0xw", none, some 1⟩

/-- Witness for the amended C2 at a concrete allowed anonymous call. -/
theorem c2_querylog_insertions_amended_witness :
    ∃ e : QueryLogEntry,
      (apiQuery c2WDb c2WReq 0 none none).1.queryLog =
        c2WDb.queryLog ++ [e] ∧
      (((apiQuery c2WDb c2WReq 0 none none).2.authenticated = some true ∧
          e.visitor_id = none ∧ e.user_id ≠ none) ∨
       ((apiQuery c2WDb c2WReq 0 none none).2.authenticated = some false ∧
          e.user_id = none ∧ e.visitor_id ≠ none)) :=
  (c2_querylog_insertions_amended c2WDb c2WReq 0 none none
    (by decide) (by decide)).1 (by decide)

/-- The (id, query_count) projection of the visitor table. -/
def visitorCounts (st : Db) : List (Nat × Nat) :=
  st.visitors.map (fun v => (v.id, v.query_count))

/-- Helper: mapping an id- and count-preserving function over the visitor
list leaves `visitorCounts` unchanged. -/
theorem visitorCounts_map_eq (l : List Visitor) (f : Visitor → Visitor)
    (hf : ∀ x, (f x).id = x.id ∧ (f x).query_count = x.query_count) :
    (l.map f).map (fun v => (v.id, v.query_count)) =
      l.map (fun v => (v.id, v.query_count)) := by
  induction l with
  | nil => rfl
  | cons x xs ih => simp [(hf x).1, (hf x).2, ih]

/-- Helper: the increment map bumps exactly the matching ids in the count
projection. -/
theorem visitorCounts_map_bump (l : List Visitor) (vid : Nat) :
    (l.map (bumpCount vid)).map (fun v => (v.id, v.query_count)) =
      l.map (fun x =>
        (x.id, if x.id == vid then x.query_count + 1 else x.query_count)) := by
  induction l with
  | nil => rfl
  | cons x xs ih =>
    by_cases h : x.id == vid
    · have h' : x.id = vid := by simpa using h
      simp [bumpCount, h, h', ih]
    · have h' : ¬ x.id = vid := by simpa using h
      simp [bumpCount, h, h', ih]

/-- Claim C8: `query_count` is monotone under every store operation —
upsert on an existing fingerprint leaves every (id, query_count) pair
unchanged (refreshing only metadata), upsert on a fresh fingerprint only
appends a new pair at count 0, the atomic increment adds exactly one to
the matching row and returns the post-increment count, and no other store
operation touches the visitor table at all. -/
theorem c8_query_count_monotone :
    ∀ (st : Db) (vd : VisitorData) (now vid : Nat) (v ex : Visitor)
      (email ph tokS addr rs : String) (expS : DbTime) (uid : Nat)
      (q : QueryData) (uidO vidO : Option Nat),
      (getVisitorByFingerprint st vd.fingerprint = some ex →
        visitorCounts (upsertVisitor st vd now).1 = visitorCounts st ∧
        (upsertVisitor st vd now).2.query_count = ex.query_count ∧
        (upsertVisitor st vd now).2.is_new = false) ∧
      (getVisitorByFingerprint st vd.fingerprint = none →
        visitorCounts (upsertVisitor st vd now).1 =
          visitorCounts st ++ [(st.nextVisitorId, 0)]) ∧
      (getVisitorById st vid = some v →
        (incrementVisitorQueryCount st vid).2 = v.query_count + 1 ∧
        visitorCounts (incrementVisitorQueryCount st vid).1 =
          st.visitors.map (fun x =>
            (x.id, if x.id == vid then x.query_count + 1
              else x.query_count))) ∧
      ((createUser st email ph none tokS expS now).1.visitors = st.visitors ∧
       (createSession st uid tokS none none expS now).1.visitors =
         st.visitors ∧
       (deleteSession st tokS).visitors = st.visitors ∧
       (deleteUserSessions st uid).visitors = st.visitors ∧
       (cleanExpiredSessions st now).visitors = st.visitors ∧
       (logQuery st q now).1.visitors = st.visitors ∧
       (updateQueryResult st uidO vidO addr rs).1.visitors = st.visitors ∧
       (createPasswordReset st uid tokS expS now).1.visitors = st.visitors ∧
       (markPasswordResetUsed st tokS).visitors = st.visitors ∧
       (updateUserPassword st uid ph).visitors = st.visitors ∧
       (updateUserLastLogin st uid now).visitors = st.visitors ∧
       (verifyUserEmail st tokS now).1.visitors = st.visitors) := by
  intro st vd now vid v ex email ph tokS addr rs expS uid q uidO vidO
  refine ⟨?_, ?_, ?_, rfl, rfl, rfl, rfl, rfl, rfl, ?_, rfl, rfl, rfl, rfl,
    ?_⟩
  · intro hex
    have hex' : st.visitors.find? (fun x => x.fingerprint == vd.fingerprint) =
        some ex := hex
    refine ⟨?_, ?_, ?_⟩
    · simp only [upsertVisitor, hex', visitorCounts]
      exact visitorCounts_map_eq _ _ (fun x => by
        by_cases h : x.fingerprint == vd.fingerprint <;> simp [h])
    · simp [upsertVisitor, hex']
    · simp [upsertVisitor, hex']
  · intro hnone
    have hnone' : st.visitors.find?
        (fun x => x.fingerprint == vd.fingerprint) = none := hnone
    simp [upsertVisitor, hnone', visitorCounts]
  · intro h
    have hspec := incrementVisitorQueryCount_spec st vid v h
    refine ⟨?_, ?_⟩
    · rw [hspec.1]
    · rw [hspec.1]
      simpa [visitorCounts] using visitorCounts_map_bump st.visitors vid
  · simp only [updateQueryResult]
    split <;> rfl
  · simp only [verifyUserEmail]
    split <;> rfl

/-- A visitor with one query used, for the C8 witness. -/
def c8Visitor : Visitor :=
  ⟨1, "fp8", none, none, none, none, none, none, none, 1,
   ⟨.sqlite, 0⟩, ⟨.sqlite, 0⟩⟩

/-- Store containing only that visitor. -/
def c8Db : Db := ⟨[c8Visitor], [], [], [], [], 2, 1, 1, 1, 1⟩

/-- An upsert for the already-known fingerprint, with a new IP. -/
def c8Data : VisitorData :=
  ⟨"fp8", some "9.9.9.9", none, none, none, none, none, none⟩

/-- Placeholder log entry input for the C8 witness instantiation. -/
def c8Q : QueryData := ⟨none, none, "0x8", none, none, none, none, none⟩

/-- Witness for C8: the re-upsert leaves the counts unchanged and the
increment returns 2 for the visitor at count 1. -/
theorem c8_query_count_monotone_witness :
    (visitorCounts (upsertVisitor c8Db c8Data 5).1 = visitorCounts c8Db ∧
     (upsertVisitor c8Db c8Data 5).2.query_count = c8Visitor.query_count ∧
     (upsertVisitor c8Db c8Data 5).2.is_new = false) ∧
    ((incrementVisitorQueryCount c8Db 1).2 = c8Visitor.query_count + 1 ∧
     visitorCounts (incrementVisitorQueryCount c8Db 1).1 =
       c8Db.visitors.map (fun x =>
         (x.id, if x.id == 1 then x.query_count + 1 else x.query_count))) := by
  have h := c8_query_count_monotone c8Db c8Data 5 1 c8Visitor c8Visitor
    "e" "p" "t" "0x8" "found" ⟨.iso, 0⟩ 1 c8Q none none
  exact ⟨h.1 (by decide), h.2.2.1 (by decide)⟩

/-- The owner of the reset token in the C4 counterexample. -/
def c4User : User :=
  ⟨1, "a@b.com", "h", 1, none, none, "free", none, 0, ⟨.sqlite, 0⟩, none⟩

/-- An unused reset token issued at epoch instant 0 with the 1-hour expiry
of `generatePasswordResetExpiry`, i.e. expiry instant 3600000. -/
def c4Reset : PasswordReset :=
  ⟨1, 1, "rtok", generatePasswordResetExpiry 0, false, ⟨.sqlite, 0⟩⟩

/-- Store with that user and token. -/
def c4Db : Db := ⟨[], [c4User], [], [c4Reset], [], 1, 2, 1, 2, 1⟩

/-- Claim C4 counterexample: at instant 7200000 — one full hour PAST the
token's expiry instant 3600000, but the same UTC day — the token is still
consumable, refuting "consumable only before its expiry": the ISO expiry
text compares byte-wise above SQLite's `datetime('now')` text throughout
the expiry instant's UTC day. -/
theorem c4_consumable_after_expiry_cex :
    c4Reset.expires_at.ms = 3600000 ∧
    c4Reset.expires_at.ms ≤ 7200000 ∧
    (getPasswordResetByToken c4Db "rtok" 7200000).isSome = true := by
  decide

/-- Helper: invalidating a user's unused tokens leaves no row of that user
both unused and his. -/
theorem invalidated_filter_nil (l : List PasswordReset) (uid : Nat) :
    (l.map (fun r => if r.user_id == uid && r.used == false
        then { r with used := true } else r)).filter
      (fun r => r.user_id == uid && r.used == false) = [] := by
  induction l with
  | nil => rfl
  | cons x xs ih =>
    simp only [List.map_cons]
    by_cases h1 : x.user_id == uid && x.used == false
    · rw [if_pos h1, List.filter_cons]
      have hpred : ((({ x with used := true } : PasswordReset).user_id == uid)
          && (({ x with used := true } : PasswordReset).used == false)) =
            false := by
        simp
      rw [hpred]
      simpa using ih
    · rw [if_neg h1, List.filter_cons]
      have hpred : ((x.user_id == uid) && (x.used == false)) = false := by
        simpa using h1
      rw [hpred]
      simpa using ih

/-- Helper: the ISO-vs-SQLite byte comparison holds exactly while the
current UTC day has not passed the expiry's UTC day. -/
theorem dbTimeGt_iso_sqlite_day (e n : Nat) :
    dbTimeGt ⟨TFmt.iso, e⟩ (DbTime.sqliteNow n) = true ↔
      n / msPerDay ≤ e / msPerDay := by
  simp [dbTimeGt, DbTime.sqliteNow, TFmt.sepCode, DbTime.timeOfDayKey]
  omega

/-- Claim C4 (amended): after `createPasswordReset` exactly one unused
reset row exists for the user (the fresh one); any earlier token of that
user is no longer consumable even if unexpired; a consumed (marked-used)
token is never consumable again; and a token is consumable only while
unused and only while the stored ISO expiry text compares above
`datetime('now')` — which, by the byte-wise text comparison, extends
through the end of the UTC day containing the expiry instant rather than
stopping at the instant itself. -/
theorem c4_password_reset_lifecycle :
    ∀ (st : Db) (uid : Nat) (tok : String) (exp : DbTime) (now : Nat),
      ((createPasswordReset st uid tok exp now).1.resets.filter
          (fun r => r.user_id == uid && r.used == false) =
        [⟨st.nextResetId, uid, tok, exp, false, DbTime.sqliteNow now⟩]) ∧
      (∀ (t0 : String) (now2 : Nat), t0 ≠ tok →
        (∀ r ∈ st.resets, r.token = t0 → r.user_id = uid) →
        getPasswordResetByToken (createPasswordReset st uid tok exp now).1
          t0 now2 = none) ∧
      (∀ (t : String) (now2 : Nat),
        getPasswordResetByToken (markPasswordResetUsed st t) t now2 =
          none) ∧
      (∀ (t : String) (now2 : Nat) (row : ResetRow),
        getPasswordResetByToken st t now2 = some row →
        row.reset.used = false ∧
        dbTimeGt row.reset.expires_at (DbTime.sqliteNow now2) = true ∧
        (row.reset.expires_at.fmt = TFmt.iso →
          now2 / msPerDay ≤ row.reset.expires_at.ms / msPerDay)) := by
  intro st uid tok exp now
  refine ⟨?_, ?_, ?_, ?_⟩
  · simp only [createPasswordReset]
    rw [List.filter_append, invalidated_filter_nil]
    simp
  · intro t0 now2 hne huser
    have hfind : (createPasswordReset st uid tok exp now).1.resets.find?
        (fun r => r.token == t0 &&
          dbTimeGt r.expires_at (DbTime.sqliteNow now2) &&
          r.used == false) = none := by
      rw [List.find?_eq_none]
      intro x hx
      simp only [createPasswordReset, List.mem_append] at hx
      rcases hx with hx | hx
      · rcases List.mem_map.mp hx with ⟨r, hr, hmap⟩
        by_cases h1 : r.user_id == uid && r.used == false
        · rw [if_pos h1] at hmap
          rw [← hmap]
          simp
        · rw [if_neg h1] at hmap
          rw [← hmap]
          by_cases htok : r.token = t0
          · have huid : r.user_id = uid := huser r hr htok
            have hused : r.used = true := by
              rcases hu : r.used
              · exact absurd (by simp [huid, hu]) h1
              · rfl
            simp [hused]
          · simp [htok]
      · simp only [List.mem_singleton] at hx
        rw [hx]
        simp [Ne.symm hne]
    simp only [getPasswordResetByToken, hfind]
  · intro t now2
    have hfind : (markPasswordResetUsed st t).resets.find?
        (fun r => r.token == t &&
          dbTimeGt r.expires_at (DbTime.sqliteNow now2) &&
          r.used == false) = none := by
      rw [List.find?_eq_none]
      intro x hx
      simp only [markPasswordResetUsed] at hx
      rcases List.mem_map.mp hx with ⟨r, _, hmap⟩
      by_cases htok : r.token == t
      · rw [if_pos htok] at hmap
        rw [← hmap]
        simp
      · rw [if_neg htok] at hmap
        rw [← hmap]
        simp only [Bool.and_eq_true, beq_iff_eq]
        intro hcon
        exact absurd (by simp [hcon.1.1]) htok
    simp only [getPasswordResetByToken, hfind]
  · intro t now2 row hrow
    rcases h1 : st.resets.find? (fun r => r.token == t &&
        dbTimeGt r.expires_at (DbTime.sqliteNow now2) &&
        r.used == false) with _ | r
    · simp only [getPasswordResetByToken, h1] at hrow
      cases hrow
    · rcases h2 : st.users.find? (fun u => u.id == r.user_id) with _ | u
      · simp only [getPasswordResetByToken, h1, h2] at hrow
        cases hrow
      · simp only [getPasswordResetByToken, h1, h2] at hrow
        cases hrow
        have hp := List.find?_some h1
        simp only [Bool.and_eq_true, beq_iff_eq] at hp
        refine ⟨hp.2, hp.1.2, ?_⟩
        intro hfmt
        rcases hexp : r.expires_at with ⟨f, msv⟩
        have hgt := hp.1.2
        rw [hexp] at hgt
        simp only [hexp, hfmt] at *
        rw [show f = TFmt.iso from hfmt] at hgt
        exact (dbTimeGt_iso_sqlite_day msv now2).mp hgt

/-- Owner of the tokens in the C4 witness. -/
def c4WUser : User :=
  ⟨1, "w@b.com", "h", 1, none, none, "free", none, 0, ⟨.sqlite, 0⟩, none⟩

/-- An earlier, still-unexpired, unused token. -/
def c4WOld : PasswordReset :=
  ⟨1, 1, "old", generatePasswordResetExpiry 0, false, ⟨.sqlite, 0⟩⟩

/-- Store with that user and token. -/
def c4WDb : Db := ⟨[], [c4WUser], [], [c4WOld], [], 1, 2, 1, 2, 1⟩

/-- Witness for the amended C4: issuing token `new` leaves exactly the new
row unused for user 1, and the earlier token `old` is no longer consumable
at instant 20 although it has not expired. -/
theorem c4_password_reset_lifecycle_witness :
    ((createPasswordReset c4WDb 1 "new" (generatePasswordResetExpiry 10)
        10).1.resets.filter (fun r => r.user_id == 1 && r.used == false) =
      [⟨2, 1, "new", generatePasswordResetExpiry 10, false,
        DbTime.sqliteNow 10⟩]) ∧
    getPasswordResetByToken
      (createPasswordReset c4WDb 1 "new" (generatePasswordResetExpiry 10)
        10).1 "old" 20 = none := by
  have h := c4_password_reset_lifecycle c4WDb 1 "new"
    (generatePasswordResetExpiry 10) 10
  exact ⟨h.1, h.2.1 "old" 20 (by decide) (by decide)⟩

/-- Claim C5: a successful POST /api/auth/reset-password deletes every
session of the owning user: any session token that (under the unique-token
constraint) belongs to that user and was valid immediately before the reset
is rejected by session lookup immediately after, while the handler answers
the success payload. -/
theorem c5_reset_destroys_sessions :
    ∀ (st : Db) (t p tk : String) (now : Nat) (newHash : String)
      (row : ResetRow) (srow : SessionRow),
      t ≠ "" → p ≠ "" →
      (validatePassword (some p)).1 = true →
      getPasswordResetByToken st t now = some row →
      (∀ s ∈ st.sessions, s.token = tk → s.user_id = row.reset.user_id) →
      getSessionByToken st tk now = some srow →
      (apiResetPassword st (some t) (some p) now newHash).2 =
        ⟨200, true, none⟩ ∧
      getSessionByToken
        (apiResetPassword st (some t) (some p) now newHash).1 tk now =
        none := by
  intro st t p tk now newHash row srow ht hp hv hr htok hbefore
  have hst : (apiResetPassword st (some t) (some p) now newHash).1 =
      deleteUserSessions (markPasswordResetUsed
        (updateUserPassword st row.reset.user_id newHash) t)
        row.reset.user_id := by
    simp [apiResetPassword, ht, hp, hv, hr]
  constructor
  · simp [apiResetPassword, ht, hp, hv, hr]
  · rw [hst]
    have hfind : (deleteUserSessions (markPasswordResetUsed
        (updateUserPassword st row.reset.user_id newHash) t)
        row.reset.user_id).sessions.find?
        (fun s => s.token == tk &&
          dbTimeGt s.expires_at (DbTime.sqliteNow now)) = none := by
      rw [List.find?_eq_none]
      intro x hx
      have hx' : x ∈ st.sessions ∧
          (!(x.user_id == row.reset.user_id)) = true := by
        simpa [deleteUserSessions, markPasswordResetUsed,
          updateUserPassword, List.mem_filter] using hx
      simp only [Bool.and_eq_true, beq_iff_eq]
      intro hcon
      have heq := htok x hx'.1 hcon.1
      simp [heq] at hx'
    simp only [getSessionByToken, hfind]

/-- The user whose password gets reset in the C5 witness. -/
def c5User : User :=
  ⟨1, "c5@b.com", "h", 1, none, none, "free", none, 0, ⟨.sqlite, 0⟩, none⟩

/-- Their pending reset token. -/
def c5Reset : PasswordReset :=
  ⟨1, 1, "r5", generatePasswordResetExpiry 0, false, ⟨.sqlite, 0⟩⟩

/-- Their live session. -/
def c5Session : Session :=
  ⟨1, 1, "s5", none, none, generateSessionExpiry 0, ⟨.sqlite, 0⟩⟩

/-- Store with user, session and reset token. -/
def c5Db : Db := ⟨[], [c5User], [c5Session], [c5Reset], [], 1, 2, 2, 2, 1⟩

/-- The joined reset row the lookup returns. -/
def c5Row : ResetRow := ⟨c5Reset, "c5@b.com"⟩

/-- The joined session row the lookup returns before the reset. -/
def c5SRow : SessionRow := ⟨c5Session, "c5@b.com", 1, "free"⟩

/-- Witness for C5 at the concrete scenario: the reset succeeds and the
previously valid session token `s5` is rejected immediately after. -/
theorem c5_reset_destroys_sessions_witness :
    (apiResetPassword c5Db (some "r5") (some "abcd1234!@#$") 0 "nh").2 =
      ⟨200, true, none⟩ ∧
    getSessionByToken
      (apiResetPassword c5Db (some "r5") (some "abcd1234!@#$") 0 "nh").1
      "s5" 0 = none :=
  c5_reset_destroys_sessions c5Db "r5" "abcd1234!@#$" "s5" 0 "nh" c5Row
    c5SRow (by decide) (by decide) (by decide) (by decide) (by decide)
    (by decide)
